import Mathlib

/-!
Verification of the distributed sewage-monitoring engine
(`sistema_monitoramento.py`, `mpi/master_node.py`, `mpi/worker_node.py`,
`mpi/processador_mpi.py`, `config/config.py`).

Python floats are modelled as real numbers (`ℝ`) where the code computes
statistics (means, standard deviations, z-scores) and as rationals (`ℚ`)
where only comparisons and sums occur (worker validation, report
aggregation), keeping those parts executable.  Wall-clock timestamps and
log output are omitted throughout: they never influence control flow.
-/

namespace Esgoto

/-! ## `config/config.py` — `ANOMALIA_CONFIG` -/

structure AnomaliaConfig where
  min_historico : ℕ
  max_historico : ℕ
  threshold_desvio : ℚ
  threshold_critico : ℚ

/-- `ANOMALIA_CONFIG` from `config/config.py` (the field `prob_anomalia_teste`
is test-data generation only and is not part of the detector).  The two
thresholds `2.5` and `3.5` are exact decimal literals, stored as rationals so
that the configuration stays executable; they are cast to `ℝ` where the
detector compares them against the z-score. -/
def ANOMALIA_CONFIG : AnomaliaConfig :=
  { min_historico := 10
    max_historico := 50
    threshold_desvio := 2.5
    threshold_critico := 3.5 }

/-! ## numpy statistics used by the detector

`np.mean` and `np.std` (population standard deviation, `ddof = 0`). -/

noncomputable def npMean (l : List ℝ) : ℝ := l.sum / l.length

noncomputable def npVar (l : List ℝ) : ℝ :=
  ((l.map (fun x => (x - npMean l) ^ 2)).sum) / l.length

noncomputable def npStd (l : List ℝ) : ℝ := Real.sqrt (npVar l)

/-! ## `DetectorAnomalias` (`sistema_monitoramento.py`, lines 53–110)

`historico_sensores` is a Python dict from sensor id to a list of floats;
it is modelled as an association list with at most one binding per key. -/

def getHist : List (String × List ℝ) → String → Option (List ℝ)
  | [], _ => none
  | (k, h) :: rest, s => if k = s then some h else getHist rest s

def setHist : List (String × List ℝ) → String → List ℝ → List (String × List ℝ)
  | [], s, h => [(s, h)]
  | (k, h0) :: rest, s, h =>
      if k = s then (s, h) :: rest else (k, h0) :: setHist rest s h

structure DetectorAnomalias where
  historico_sensores : List (String × List ℝ)

def detectorVazio : DetectorAnomalias := ⟨[]⟩

/-- The window-bounding step of `adicionar_leitura`:
`if len(hist) > max_hist: hist = hist[-max_hist:]`. -/
def truncadoMax (l : List ℝ) : List ℝ :=
  if l.length > ANOMALIA_CONFIG.max_historico then
    l.drop (l.length - ANOMALIA_CONFIG.max_historico)
  else l

/-- `DetectorAnomalias.adicionar_leitura`: append the reading, then keep only
the last `max_historico` values (`historico[-max_hist:]`). -/
def adicionar_leitura (d : DetectorAnomalias) (sensor_id : String) (vazao : ℝ) :
    DetectorAnomalias :=
  let hist := (getHist d.historico_sensores sensor_id).getD []
  ⟨setHist d.historico_sensores sensor_id (truncadoMax (hist ++ [vazao]))⟩

/-- `DetectorAnomalias.detectar_anomalia`.  Returns the `(bool, str)` pair of
the Python function together with the updated detector state. -/
noncomputable def detectar_anomalia (d : DetectorAnomalias) (sensor_id : String)
    (vazao_atual : ℝ) : (Bool × String) × DetectorAnomalias :=
  let d' := adicionar_leitura d sensor_id vazao_atual
  match getHist d'.historico_sensores sensor_id with
  | none => ((false, "SEM_HISTORICO"), d')
  | some historico =>
      if historico.length < ANOMALIA_CONFIG.min_historico then
        ((false, "HISTORICO_INSUFICIENTE"), d')
      else
        let historico_array := historico.dropLast
        let media := npMean historico_array
        let desvio := npStd historico_array
        if desvio = 0 then
          ((false, "SENSOR_CONSTANTE"), d')
        else
          let z_score := |vazao_atual - media| / desvio
          if z_score > (ANOMALIA_CONFIG.threshold_critico : ℝ) then
            if vazao_atual > media then ((true, "VAZAMENTO_CRITICO"), d')
            else ((true, "ENTUPIMENTO_CRITICO"), d')
          else if z_score > (ANOMALIA_CONFIG.threshold_desvio : ℝ) then
            if vazao_atual > media then ((true, "VAZAMENTO_ALTO"), d')
            else ((true, "ENTUPIMENTO_ALTO"), d')
          else
            ((false, "NORMAL"), d')

/-! ### Basic facts about the history map and the bounded window -/

theorem getHist_setHist_self (m : List (String × List ℝ)) (s : String) (h : List ℝ) :
    getHist (setHist m s h) s = some h := by
  induction m with
  | nil => simp [getHist, setHist]
  | cons p rest ih =>
      obtain ⟨k, h0⟩ := p
      by_cases hk : k = s <;> simp [getHist, setHist, hk, ih]

theorem getHist_setHist_ne (m : List (String × List ℝ)) (s t : String) (h : List ℝ)
    (hne : s ≠ t) : getHist (setHist m s h) t = getHist m t := by
  induction m with
  | nil => simp [getHist, setHist, hne, Ne.symm hne]
  | cons p rest ih =>
      obtain ⟨k, h0⟩ := p
      by_cases hk : k = s
      · subst hk
        simp [getHist, setHist, hne, Ne.symm hne]
      · by_cases ht : k = t <;> simp [getHist, setHist, hk, ht, ih, Ne.symm hne]

theorem max_historico_val : ANOMALIA_CONFIG.max_historico = 50 := rfl

theorem min_historico_val : ANOMALIA_CONFIG.min_historico = 10 := rfl

theorem truncadoMax_eq_drop (l : List ℝ) :
    truncadoMax l = l.drop (l.length - ANOMALIA_CONFIG.max_historico) := by
  unfold truncadoMax
  split <;> rename_i h
  · rfl
  · have : l.length - ANOMALIA_CONFIG.max_historico = 0 := by omega
    simp [this]

theorem length_truncadoMax (l : List ℝ) :
    (truncadoMax l).length = min l.length ANOMALIA_CONFIG.max_historico := by
  rw [truncadoMax_eq_drop, List.length_drop]
  omega

theorem dropLast_truncadoMax_append (prior : List ℝ) (v : ℝ) :
    (truncadoMax (prior ++ [v])).dropLast
      = prior.drop (prior.length + 1 - ANOMALIA_CONFIG.max_historico) := by
  rw [truncadoMax_eq_drop]
  have hk : prior.length + 1 - ANOMALIA_CONFIG.max_historico ≤ prior.length := by
    rw [max_historico_val]; omega
  rw [List.length_append, List.length_singleton,
    List.drop_append_of_le_length hk, List.dropLast_concat]

theorem getHist_adicionar_self (d : DetectorAnomalias) (s : String) (v : ℝ) :
    getHist (adicionar_leitura d s v).historico_sensores s
      = some (truncadoMax ((getHist d.historico_sensores s).getD [] ++ [v])) := by
  simp [adicionar_leitura, getHist_setHist_self]

theorem getHist_adicionar_ne (d : DetectorAnomalias) (s t : String) (v : ℝ)
    (hne : s ≠ t) :
    getHist (adicionar_leitura d s v).historico_sensores t
      = getHist d.historico_sensores t := by
  simp [adicionar_leitura, getHist_setHist_ne _ _ _ _ hne]

/-! ### A state-free characterization of `detectar_anomalia`

`detectar_anomalia` always stores the reading via `adicionar_leitura` and
its classification depends only on the prior history of the one sensor; the
`SEM_HISTORICO` branch is unreachable because the lookup directly follows the
insertion.  `detectResultado` packages that classification. -/

noncomputable def detectResultado (prior : List ℝ) (v : ℝ) : Bool × String :=
  let historico := truncadoMax (prior ++ [v])
  if historico.length < ANOMALIA_CONFIG.min_historico then
    (false, "HISTORICO_INSUFICIENTE")
  else
    let historico_array := historico.dropLast
    let media := npMean historico_array
    let desvio := npStd historico_array
    if desvio = 0 then (false, "SENSOR_CONSTANTE")
    else
      let z_score := |v - media| / desvio
      if z_score > (ANOMALIA_CONFIG.threshold_critico : ℝ) then
        if v > media then (true, "VAZAMENTO_CRITICO") else (true, "ENTUPIMENTO_CRITICO")
      else if z_score > (ANOMALIA_CONFIG.threshold_desvio : ℝ) then
        if v > media then (true, "VAZAMENTO_ALTO") else (true, "ENTUPIMENTO_ALTO")
      else (false, "NORMAL")

theorem detectar_eq (d : DetectorAnomalias) (s : String) (v : ℝ) :
    detectar_anomalia d s v
      = (detectResultado ((getHist d.historico_sensores s).getD []) v,
         adicionar_leitura d s v) := by
  simp only [detectar_anomalia, detectResultado, getHist_adicionar_self]
  split_ifs <;> rfl

/-! ### Statistics of constant histories -/

theorem npMean_const (l : List ℝ) (c : ℝ) (hl : l ≠ []) (h : ∀ x ∈ l, x = c) :
    npMean l = c := by
  have hlen : (l.length : ℝ) ≠ 0 := by
    simpa using List.length_pos.2 hl |>.ne'
  unfold npMean
  rw [List.sum_eq_card_nsmul l c h, nsmul_eq_mul, mul_div_cancel_left₀ _ hlen]

theorem npVar_const (l : List ℝ) (c : ℝ) (h : ∀ x ∈ l, x = c) : npVar l = 0 := by
  rcases eq_or_ne l [] with rfl | hl
  · simp [npVar]
  · have hsum : (l.map fun x => (x - npMean l) ^ 2).sum = 0 := by
      refine List.sum_eq_zero ?_
      intro y hy
      rcases List.mem_map.1 hy with ⟨x, hx, rfl⟩
      rw [h x hx, npMean_const l c hl h]
      ring
    unfold npVar
    rw [hsum, zero_div]

theorem npStd_const (l : List ℝ) (c : ℝ) (h : ∀ x ∈ l, x = c) : npStd l = 0 := by
  rw [npStd, npVar_const l c h, Real.sqrt_zero]

/-! ## Claim C1 — the `HISTORICO_INSUFICIENTE` guard

The spec places the `min_historico` comparison on the history *excluding*
the just-appended value; the code (`sistema_monitoramento.py` line 84)
compares `len(historico)` *including* it.  With exactly 9 prior readings the
spec demands `HISTORICO_INSUFICIENTE` while the code proceeds to the
statistical branch. -/

/-- C1 (amended): if the stored history *including* the just-appended
reading is shorter than `min_historico` — equivalently, there are fewer than
`min_historico - 1` prior readings — `detectar_anomalia` appends the value
and returns `(false, HISTORICO_INSUFICIENTE)`; being a total function it
never raises. -/
theorem c1_historico_insuficiente (d : DetectorAnomalias) (s : String) (v : ℝ)
    (h : ((getHist d.historico_sensores s).getD []).length + 1
          < ANOMALIA_CONFIG.min_historico) :
    detectar_anomalia d s v
      = ((false, "HISTORICO_INSUFICIENTE"), adicionar_leitura d s v) := by
  rw [detectar_eq]
  have hlen : (truncadoMax ((getHist d.historico_sensores s).getD [] ++ [v])).length
      < ANOMALIA_CONFIG.min_historico := by
    rw [length_truncadoMax, List.length_append, List.length_singleton,
      max_historico_val, min_historico_val] at *
    omega
  simp only [detectResultado, if_pos hlen]

/-- C1 witness: on a fresh detector (`0` prior readings) any reading is
classified `HISTORICO_INSUFICIENTE` and stored. -/
theorem c1_historico_insuficiente_witness :
    (((getHist detectorVazio.historico_sensores "S1").getD []).length + 1
        < ANOMALIA_CONFIG.min_historico)
    ∧ detectar_anomalia detectorVazio "S1" 42
        = ((false, "HISTORICO_INSUFICIENTE"), adicionar_leitura detectorVazio "S1" 42) :=
  ⟨by norm_num [detectorVazio, getHist, min_historico_val],
   c1_historico_insuficiente detectorVazio "S1" 42
     (by norm_num [detectorVazio, getHist, min_historico_val])⟩

/-- C1 counterexample: a sensor with 9 identical prior readings — fewer than
`min_historico = 10`, so the claim demands `HISTORICO_INSUFICIENTE` — is
instead classified `SENSOR_CONSTANTE`: the guard counts the just-appended
reading. -/
theorem c1_counterexample :
    (((getHist (⟨[("S1", List.replicate 9 (50:ℝ))]⟩ : DetectorAnomalias).historico_sensores
          "S1").getD []).length < ANOMALIA_CONFIG.min_historico)
    ∧ (detectar_anomalia ⟨[("S1", List.replicate 9 (50:ℝ))]⟩ "S1" 50).1
        ≠ (false, "HISTORICO_INSUFICIENTE")
    ∧ (detectar_anomalia ⟨[("S1", List.replicate 9 (50:ℝ))]⟩ "S1" 50).1
        = (false, "SENSOR_CONSTANTE") := by
  have hget : getHist (⟨[("S1", List.replicate 9 (50:ℝ))]⟩ :
      DetectorAnomalias).historico_sensores "S1" = some (List.replicate 9 (50:ℝ)) := by
    simp [getHist]
  have harr : (truncadoMax (List.replicate 9 (50:ℝ) ++ [50])).dropLast
      = List.replicate 9 (50:ℝ) := by
    rw [dropLast_truncadoMax_append, max_historico_val]
    simp
  have hlen : ¬ (truncadoMax (List.replicate 9 (50:ℝ) ++ [50])).length
      < ANOMALIA_CONFIG.min_historico := by
    rw [length_truncadoMax, max_historico_val, min_historico_val]
    simp
  have hstd : npStd (List.replicate 9 (50:ℝ)) = 0 :=
    npStd_const _ 50 (by simp)
  have hres : detectResultado (List.replicate 9 (50:ℝ)) 50 = (false, "SENSOR_CONSTANTE") := by
    simp only [detectResultado, if_neg hlen, harr, hstd, eq_self_iff_true, if_true]
  refine ⟨by rw [hget]; simp [min_historico_val], ?_, ?_⟩
  · rw [detectar_eq, hget]
    simp only [Option.getD_some]
    rw [hres]
    simp
  · rw [detectar_eq, hget]
    simp only [Option.getD_some]
    rw [hres]

/-! ## Claim C3 — constant histories (`SENSOR_CONSTANTE`) -/

/-- C3: whenever the prior history has at least `min_historico` readings and
all its values are identical, `detectar_anomalia` returns
`(false, SENSOR_CONSTANTE)`; the `σ = 0` branch returns before the z-score
division, so no division by zero occurs. -/
theorem c3_sensor_constante (d : DetectorAnomalias) (s : String) (v c : ℝ)
    (hlen : ANOMALIA_CONFIG.min_historico
        ≤ ((getHist d.historico_sensores s).getD []).length)
    (hconst : ∀ x ∈ (getHist d.historico_sensores s).getD [], x = c) :
    detectar_anomalia d s v = ((false, "SENSOR_CONSTANTE"), adicionar_leitura d s v) := by
  rw [detectar_eq]
  set prior := (getHist d.historico_sensores s).getD [] with hprior
  have hlen2 : ¬ (truncadoMax (prior ++ [v])).length < ANOMALIA_CONFIG.min_historico := by
    rw [length_truncadoMax, List.length_append, List.length_singleton,
      max_historico_val, min_historico_val] at *
    omega
  have harr : (truncadoMax (prior ++ [v])).dropLast
      = prior.drop (prior.length + 1 - ANOMALIA_CONFIG.max_historico) :=
    dropLast_truncadoMax_append prior v
  have hstd : npStd (prior.drop (prior.length + 1 - ANOMALIA_CONFIG.max_historico)) = 0 :=
    npStd_const _ c (fun x hx => hconst x (List.mem_of_mem_drop hx))
  simp only [detectResultado, if_neg hlen2, harr, hstd, eq_self_iff_true, if_true]

/-- C3 witness: sensor `S2` with 10 identical readings of `50.0` and an 11th
reading of `50.0` yields `SENSOR_CONSTANTE`, not an anomaly. -/
theorem c3_sensor_constante_witness :
    (ANOMALIA_CONFIG.min_historico
        ≤ ((getHist (⟨[("S2", List.replicate 10 (50:ℝ))]⟩ :
              DetectorAnomalias).historico_sensores "S2").getD []).length)
    ∧ (detectar_anomalia ⟨[("S2", List.replicate 10 (50:ℝ))]⟩ "S2" 50).1
        = (false, "SENSOR_CONSTANTE") := by
  refine ⟨by simp [getHist, min_historico_val], ?_⟩
  rw [c3_sensor_constante ⟨[("S2", List.replicate 10 (50:ℝ))]⟩ "S2" 50 50
    (by simp [getHist, min_historico_val]) (by simp [getHist])]

/-! ## Claim C2 — z-score thresholds -/

/-- The stored window right after `detectar_anomalia` stores a reading,
excluding that reading (`historico[:-1]`): the baseline for μ and σ. -/
noncomputable def janelaAposLeitura (d : DetectorAnomalias) (s : String) (v : ℝ) : List ℝ :=
  ((getHist (adicionar_leitura d s v).historico_sensores s).getD []).dropLast

theorem janelaAposLeitura_eq (d : DetectorAnomalias) (s : String) (v : ℝ) :
    janelaAposLeitura d s v
      = (truncadoMax ((getHist d.historico_sensores s).getD [] ++ [v])).dropLast := by
  simp [janelaAposLeitura, getHist_adicionar_self]

/-- C2: with at least `min_historico` prior readings and a non-degenerate
baseline (σ ≠ 0), the classification follows the z-score thresholds:
`z > threshold_critico` gives `VAZAMENTO_CRITICO`/`ENTUPIMENTO_CRITICO`
according to the sign of `v - μ`, else `z > threshold_desvio` gives
`VAZAMENTO_ALTO`/`ENTUPIMENTO_ALTO`, else `(false, NORMAL)`. -/
theorem c2_classificacao (d : DetectorAnomalias) (s : String) (v : ℝ)
    (hlen : ANOMALIA_CONFIG.min_historico
        ≤ ((getHist d.historico_sensores s).getD []).length)
    (hσ : npStd (janelaAposLeitura d s v) ≠ 0) :
    ((|v - npMean (janelaAposLeitura d s v)| / npStd (janelaAposLeitura d s v)
          > (ANOMALIA_CONFIG.threshold_critico : ℝ) →
        detectar_anomalia d s v
          = ((true, if v > npMean (janelaAposLeitura d s v) then "VAZAMENTO_CRITICO"
                    else "ENTUPIMENTO_CRITICO"), adicionar_leitura d s v))
    ∧ (|v - npMean (janelaAposLeitura d s v)| / npStd (janelaAposLeitura d s v)
          ≤ (ANOMALIA_CONFIG.threshold_critico : ℝ) →
       |v - npMean (janelaAposLeitura d s v)| / npStd (janelaAposLeitura d s v)
          > (ANOMALIA_CONFIG.threshold_desvio : ℝ) →
        detectar_anomalia d s v
          = ((true, if v > npMean (janelaAposLeitura d s v) then "VAZAMENTO_ALTO"
                    else "ENTUPIMENTO_ALTO"), adicionar_leitura d s v))
    ∧ (|v - npMean (janelaAposLeitura d s v)| / npStd (janelaAposLeitura d s v)
          ≤ (ANOMALIA_CONFIG.threshold_desvio : ℝ) →
        detectar_anomalia d s v
          = ((false, "NORMAL"), adicionar_leitura d s v))) := by
  have hj := janelaAposLeitura_eq d s v
  have hlen2 : ¬ (truncadoMax ((getHist d.historico_sensores s).getD [] ++ [v])).length
      < ANOMALIA_CONFIG.min_historico := by
    rw [length_truncadoMax, List.length_append, List.length_singleton,
      max_historico_val, min_historico_val] at *
    omega
  have hσ' : ¬ npStd ((truncadoMax ((getHist d.historico_sensores s).getD [] ++ [v])).dropLast)
      = 0 := by rw [← hj]; exact hσ
  refine ⟨?_, ?_, ?_⟩
  · intro hz
    rw [hj] at hz ⊢
    rw [detectar_eq]
    simp only [detectResultado, if_neg hlen2, if_neg hσ', if_pos hz]
    by_cases hv : v > npMean ((truncadoMax ((getHist d.historico_sensores s).getD []
        ++ [v])).dropLast)
    · rw [if_pos hv, if_pos hv]
    · rw [if_neg hv, if_neg hv]
  · intro hz1 hz2
    rw [hj] at hz1 hz2 ⊢
    rw [detectar_eq]
    simp only [detectResultado, if_neg hlen2, if_neg hσ', if_neg (not_lt.2 hz1), if_pos hz2]
    by_cases hv : v > npMean ((truncadoMax ((getHist d.historico_sensores s).getD []
        ++ [v])).dropLast)
    · rw [if_pos hv, if_pos hv]
    · rw [if_neg hv, if_neg hv]
  · intro hz
    rw [hj] at hz
    rw [detectar_eq]
    have hz1 : ¬ |v - npMean ((truncadoMax ((getHist d.historico_sensores s).getD []
        ++ [v])).dropLast)| / npStd ((truncadoMax ((getHist d.historico_sensores s).getD []
        ++ [v])).dropLast) > (ANOMALIA_CONFIG.threshold_critico : ℝ) := by
      refine not_lt.2 (le_trans hz ?_)
      norm_num [ANOMALIA_CONFIG]
    simp only [detectResultado, if_neg hlen2, if_neg hσ', if_neg hz1, if_neg (not_lt.2 hz)]

/-- The 10-reading history of sensor `S1` from the spec scenario. -/
def histS1 : List ℝ := [100, 102, 98, 101, 99, 100, 103, 97, 100, 101]

theorem npMean_histS1 : npMean histS1 = 100.1 := by
  simp only [histS1, npMean, List.sum_cons, List.sum_nil, List.length_cons, List.length_nil]
  norm_num

theorem npStd_histS1 : npStd histS1 = 1.7 := by
  have hvar : npVar histS1 = 2.89 := by
    simp only [npVar, npMean_histS1]
    simp only [histS1, List.map_cons, List.map_nil, List.sum_cons,
      List.sum_nil, List.length_cons, List.length_nil]
    norm_num
  rw [npStd, hvar, show (2.89:ℝ) = 1.7 ^ 2 by norm_num, Real.sqrt_sq (by norm_num)]

/-- C2 witness: the spec scenario — after history
`[100,102,98,101,99,100,103,97,100,101]` an 11th reading of `108` is
classified `VAZAMENTO_CRITICO`. -/
theorem c2_classificacao_witness :
    (ANOMALIA_CONFIG.min_historico
        ≤ ((getHist (⟨[("S1", histS1)]⟩ : DetectorAnomalias).historico_sensores
            "S1").getD []).length)
    ∧ npStd (janelaAposLeitura ⟨[("S1", histS1)]⟩ "S1" 108) ≠ 0
    ∧ (detectar_anomalia ⟨[("S1", histS1)]⟩ "S1" 108).1 = (true, "VAZAMENTO_CRITICO") := by
  have hget : getHist (⟨[("S1", histS1)]⟩ : DetectorAnomalias).historico_sensores "S1"
      = some histS1 := by simp [getHist]
  have hjan : janelaAposLeitura ⟨[("S1", histS1)]⟩ "S1" 108 = histS1 := by
    rw [janelaAposLeitura_eq, hget, dropLast_truncadoMax_append, max_historico_val]
    simp [histS1]
  have hlen : ANOMALIA_CONFIG.min_historico
      ≤ ((getHist (⟨[("S1", histS1)]⟩ : DetectorAnomalias).historico_sensores
          "S1").getD []).length := by
    rw [hget]; simp [histS1, min_historico_val]
  have habs : |(108:ℝ) - npMean histS1| = 7.9 := by
    rw [npMean_histS1, show (108:ℝ) - 100.1 = 7.9 by norm_num]
    exact abs_of_pos (by norm_num)
  have hσ : npStd (janelaAposLeitura ⟨[("S1", histS1)]⟩ "S1" 108) ≠ 0 := by
    rw [hjan, npStd_histS1]; norm_num
  have hz : |(108:ℝ) - npMean (janelaAposLeitura ⟨[("S1", histS1)]⟩ "S1" 108)|
      / npStd (janelaAposLeitura ⟨[("S1", histS1)]⟩ "S1" 108)
      > (ANOMALIA_CONFIG.threshold_critico : ℝ) := by
    rw [hjan, npStd_histS1, habs]
    norm_num [ANOMALIA_CONFIG]
  have hv : (108:ℝ) > npMean (janelaAposLeitura ⟨[("S1", histS1)]⟩ "S1" 108) := by
    rw [hjan, npMean_histS1]; norm_num
  refine ⟨hlen, hσ, ?_⟩
  have h := (c2_classificacao ⟨[("S1", histS1)]⟩ "S1" 108 hlen hσ).1 hz
  rw [h, if_pos hv]

/-! ## Claim C10 — `is_anomaly` iff one of the four leak/blockage kinds -/

/-- The alert guard shared by `processo_worker` and `processar_dados_local`
(`sistema_monitoramento.py` lines 262 and 310):
`tem_anomalia and tipo not in ['SEM_HISTORICO', 'HISTORICO_INSUFICIENTE']`. -/
def alertaEmitido (r : Bool × String) : Prop :=
  r.1 = true ∧ r.2 ∉ ["SEM_HISTORICO", "HISTORICO_INSUFICIENTE"]

instance (r : Bool × String) : Decidable (alertaEmitido r) := by
  unfold alertaEmitido; infer_instance

/-- C10: `detectar_anomalia` returns `true` exactly when the kind is one of
the four leak/blockage kinds, and the worker's alert guard fires exactly in
the same cases. -/
theorem c10_alerta_sse_anomalia (d : DetectorAnomalias) (s : String) (v : ℝ) :
    ((detectar_anomalia d s v).1.1 = true ↔
      (detectar_anomalia d s v).1.2
        ∈ ["VAZAMENTO_ALTO", "ENTUPIMENTO_ALTO", "VAZAMENTO_CRITICO", "ENTUPIMENTO_CRITICO"])
    ∧ (alertaEmitido (detectar_anomalia d s v).1 ↔
      (detectar_anomalia d s v).1.2
        ∈ ["VAZAMENTO_ALTO", "ENTUPIMENTO_ALTO", "VAZAMENTO_CRITICO", "ENTUPIMENTO_CRITICO"]) := by
  rw [detectar_eq]
  simp only [detectResultado]
  split_ifs <;> simp [alertaEmitido]

/-! ## Claim C7 — bounded FIFO history window -/

/-- Run a sequence of `detectar_anomalia` calls, threading the detector
state. -/
noncomputable def runDetect (d : DetectorAnomalias) : List (String × ℝ) → DetectorAnomalias
  | [] => d
  | (s, v) :: rest => runDetect (detectar_anomalia d s v).2 rest

/-- The readings submitted for sensor `s`, in call order. -/
def leiturasDe (calls : List (String × ℝ)) (s : String) : List ℝ :=
  calls.filterMap (fun p => if p.1 = s then some p.2 else none)

theorem snd_detectar (d : DetectorAnomalias) (s : String) (v : ℝ) :
    (detectar_anomalia d s v).2 = adicionar_leitura d s v := by
  rw [detectar_eq]

theorem runDetect_concat (d : DetectorAnomalias) (calls : List (String × ℝ))
    (c : String × ℝ) :
    runDetect d (calls ++ [c]) = (detectar_anomalia (runDetect d calls) c.1 c.2).2 := by
  induction calls generalizing d with
  | nil => simp [runDetect]
  | cons p rest ih =>
      obtain ⟨s, v⟩ := p
      simp [runDetect, ih]

theorem leiturasDe_concat_self (calls : List (String × ℝ)) (s : String) (v : ℝ) :
    leiturasDe (calls ++ [(s, v)]) s = leiturasDe calls s ++ [v] := by
  simp [leiturasDe]

theorem leiturasDe_concat_ne (calls : List (String × ℝ)) (s' s : String) (v : ℝ)
    (h : s' ≠ s) : leiturasDe (calls ++ [(s', v)]) s = leiturasDe calls s := by
  simp [leiturasDe, h]

/-- Re-truncating after one more append agrees with truncating the full
appended sequence: the step invariant of the bounded window. -/
theorem truncadoMax_drop_append (t : List ℝ) (v : ℝ) :
    truncadoMax (t.drop (t.length - ANOMALIA_CONFIG.max_historico) ++ [v])
      = (t ++ [v]).drop ((t ++ [v]).length - ANOMALIA_CONFIG.max_historico) := by
  rw [truncadoMax_eq_drop, max_historico_val] at *
  rcases Nat.lt_or_ge t.length 50 with hlt | hge
  · have h0 : t.length - 50 = 0 := by omega
    have h1 : (t.drop 0 ++ [v]).length - 50 = 0 := by
      simp; omega
    have h2 : (t ++ [v]).length - 50 = 0 := by
      simp; omega
    rw [h0, h1, h2]
    simp
  · have h1 : (t.drop (t.length - 50) ++ [v]).length - 50 = 1 := by
      simp [List.length_drop]; omega
    rw [h1]
    have h2 : (1:ℕ) ≤ (t.drop (t.length - 50)).length := by
      simp [List.length_drop]; omega
    rw [List.drop_append_of_le_length h2, List.drop_drop]
    have h3 : (t ++ [v]).length - 50 = t.length - 50 + 1 := by
      simp; omega
    have h4 : t.length - 50 + 1 ≤ t.length := by omega
    rw [h3, List.drop_append_of_le_length h4]

theorem getHist_runDetect (calls : List (String × ℝ)) (s : String) :
    getHist (runDetect detectorVazio calls).historico_sensores s
      = if leiturasDe calls s = [] then none
        else some ((leiturasDe calls s).drop
            ((leiturasDe calls s).length - ANOMALIA_CONFIG.max_historico)) := by
  induction calls using List.reverseRecOn with
  | nil => simp [runDetect, detectorVazio, getHist, leiturasDe]
  | append_singleton calls c ih =>
      obtain ⟨s', v⟩ := c
      rw [runDetect_concat, snd_detectar]
      by_cases hs : s' = s
      · subst hs
        rw [getHist_adicionar_self, ih, leiturasDe_concat_self]
        by_cases hnil : leiturasDe calls s' = []
        · rw [if_pos hnil, hnil]
          simp [truncadoMax, max_historico_val]
        · rw [if_neg hnil, if_neg (by simp)]
          simp only [Option.getD_some]
          rw [truncadoMax_drop_append]
      · rw [getHist_adicionar_ne _ _ _ _ hs, ih, leiturasDe_concat_ne _ _ _ _ hs]

/-- C7: starting from a fresh detector, after any sequence of
`detectar_anomalia` calls each sensor's stored history is exactly the most
recent `max_historico` readings submitted for it, in FIFO order (oldest
evicted first), hence never longer than `max_historico`; a sensor that never
received a reading has no entry (lazy creation). -/
theorem c7_janela_fifo (calls : List (String × ℝ)) (s : String) :
    (getHist (runDetect detectorVazio calls).historico_sensores s
      = if leiturasDe calls s = [] then none
        else some ((leiturasDe calls s).drop
            ((leiturasDe calls s).length - ANOMALIA_CONFIG.max_historico)))
    ∧ (getHist (runDetect detectorVazio calls).historico_sensores s).elim 0 List.length
        ≤ ANOMALIA_CONFIG.max_historico := by
  refine ⟨getHist_runDetect calls s, ?_⟩
  rw [getHist_runDetect calls s]
  by_cases hnil : leiturasDe calls s = []
  · rw [if_pos hnil]
    simp [max_historico_val]
  · rw [if_neg hnil]
    simp only [Option.elim_some, List.length_drop]
    rw [max_historico_val]
    omega

/-! ## `WorkerNode` (`codigo/src/mpi/worker_node.py`)

Input records are Python dicts whose keys may be absent, modelled as a
record of `Option` fields; the numeric values are rationals (validation and
thresholds only compare and never take roots).  Wall-clock default
timestamps (`datetime.now().isoformat()`) are modelled as `""`: their value
never influences validation or alerts. -/

structure Registro where
  sensor_id : Option String
  timestamp : Option String
  flow_rate : Option ℚ
  pressure : Option ℚ
  temperature : Option ℚ
  ph_level : Option ℚ
  turbidity : Option ℚ
  location_x : Option ℚ
  location_y : Option ℚ
deriving DecidableEq

structure RegistroValidado where
  sensor_id : String
  timestamp : String
  flow_rate : ℚ
  pressure : ℚ
  temperature : ℚ
  ph_level : ℚ
  turbidity : ℚ
  location_x : ℚ
  location_y : ℚ
deriving DecidableEq

/-- One iteration of the loop in `WorkerNode.validate_data` (lines 44–79):
`none` when the record is skipped (`continue`), `some` with the converted
record otherwise.  The Python `float()`/`str()` conversions cannot fail on
the typed fields modelled here; the `except` arm that catches conversion
errors also just skips the record. -/
def validateRecord (r : Registro) : Option RegistroValidado :=
  match r.sensor_id, r.flow_rate, r.pressure, r.temperature, r.ph_level with
  | some sid, some fr, some pr, some te, some ph =>
      if fr < 0 ∨ pr < 0 ∨ te < -50 ∨ te > 100 ∨ ph < 0 ∨ ph > 14 then none
      else some { sensor_id := sid, timestamp := r.timestamp.getD "",
                  flow_rate := fr, pressure := pr, temperature := te, ph_level := ph,
                  turbidity := r.turbidity.getD 0, location_x := r.location_x.getD 0,
                  location_y := r.location_y.getD 0 }
  | _, _, _, _, _ => none

/-- `WorkerNode.validate_data`. -/
def validate_data (data : List Registro) : List RegistroValidado :=
  data.filterMap validateRecord

/-- The threshold dictionary consumed by `WorkerNode.detect_anomalies`
(each key read with `thresholds.get(key, default)`). -/
structure Thresholds where
  flow_rate_max : Option ℚ
  pressure_max : Option ℚ
  temperature_max : Option ℚ
  ph_min : Option ℚ
  ph_max : Option ℚ
  turbidity_max : Option ℚ
deriving DecidableEq

structure AlertaWorker where
  type : String
  value : ℚ
  threshold : ℚ
  severity : String
  sensor_id : String
  timestamp : String
  location_x : ℚ
  location_y : ℚ
deriving DecidableEq

/-- The alerts produced for one validated record by the body of the loop in
`WorkerNode.detect_anomalies` (lines 87–153), in check order. -/
def alertsFor (thresholds : Thresholds) (record : RegistroValidado) : List AlertaWorker :=
  (if record.flow_rate > thresholds.flow_rate_max.getD 100 then
    [{ type := "flow_rate_high", value := record.flow_rate,
       threshold := thresholds.flow_rate_max.getD 100, severity := "high",
       sensor_id := record.sensor_id, timestamp := record.timestamp,
       location_x := record.location_x, location_y := record.location_y }] else [])
  ++ (if record.pressure > thresholds.pressure_max.getD 5 then
    [{ type := "pressure_high", value := record.pressure,
       threshold := thresholds.pressure_max.getD 5, severity := "high",
       sensor_id := record.sensor_id, timestamp := record.timestamp,
       location_x := record.location_x, location_y := record.location_y }] else [])
  ++ (if record.temperature > thresholds.temperature_max.getD 35 then
    [{ type := "temperature_high", value := record.temperature,
       threshold := thresholds.temperature_max.getD 35, severity := "medium",
       sensor_id := record.sensor_id, timestamp := record.timestamp,
       location_x := record.location_x, location_y := record.location_y }] else [])
  ++ (if record.ph_level < thresholds.ph_min.getD 6 then
    [{ type := "ph_low", value := record.ph_level,
       threshold := thresholds.ph_min.getD 6, severity := "high",
       sensor_id := record.sensor_id, timestamp := record.timestamp,
       location_x := record.location_x, location_y := record.location_y }]
    else if record.ph_level > thresholds.ph_max.getD 8.5 then
    [{ type := "ph_high", value := record.ph_level,
       threshold := thresholds.ph_max.getD 8.5, severity := "high",
       sensor_id := record.sensor_id, timestamp := record.timestamp,
       location_x := record.location_x, location_y := record.location_y }] else [])
  ++ (if record.turbidity > thresholds.turbidity_max.getD 50 then
    [{ type := "turbidity_high", value := record.turbidity,
       threshold := thresholds.turbidity_max.getD 50, severity := "medium",
       sensor_id := record.sensor_id, timestamp := record.timestamp,
       location_x := record.location_x, location_y := record.location_y }] else [])

/-- `WorkerNode.detect_anomalies`. -/
def detect_anomalies (data : List RegistroValidado) (thresholds : Thresholds) :
    List AlertaWorker :=
  (data.map (alertsFor thresholds)).flatten

/-- `BatchResult` as consumed by the master.  The `statistics` block and
`processing_time` of the Python dict are omitted: the master's consolidation
recomputes statistics from `processed_data` and never reads them. -/
structure BatchResult where
  batch_id : ℕ
  worker_rank : ℕ
  records_processed : ℕ
  records_invalid : ℕ
  alerts_count : ℕ
  alerts : List AlertaWorker
  processed_data : List RegistroValidado
deriving DecidableEq

/-- `WorkerNode.process_batch` (lines 194–230). -/
def process_batch (rank : ℕ) (batch_id : ℕ) (data : List Registro)
    (thresholds : Thresholds) : BatchResult :=
  let validated_data := validate_data data
  let alerts := detect_anomalies validated_data thresholds
  { batch_id := batch_id, worker_rank := rank,
    records_processed := validated_data.length,
    records_invalid := data.length - validated_data.length,
    alerts_count := alerts.length, alerts := alerts,
    processed_data := validated_data }

/-! ## Claim C4 — worker validation -/

/-- A record missing one of the five required fields (the claim's rejection
condition, first half). -/
def faltaCampoObrigatorio (r : Registro) : Prop :=
  r.sensor_id = none ∨ r.flow_rate = none ∨ r.pressure = none ∨
  r.temperature = none ∨ r.ph_level = none

/-- A record with a value outside the documented ranges (the claim's
rejection condition, second half). -/
def foraDaFaixa (r : Registro) : Prop :=
  (∃ x, r.flow_rate = some x ∧ x < 0)
  ∨ (∃ x, r.pressure = some x ∧ x < 0)
  ∨ (∃ x, r.temperature = some x ∧ (x < -50 ∨ x > 100))
  ∨ (∃ x, r.ph_level = some x ∧ (x < 0 ∨ x > 14))

theorem mem_alertsFor (t : Thresholds) (v : RegistroValidado) (a : AlertaWorker)
    (ha : a ∈ alertsFor t v) : a.sensor_id = v.sensor_id ∧ a.timestamp = v.timestamp := by
  unfold alertsFor at ha
  split_ifs at ha <;> simp_all <;> aesop

/-- C4: worker validation rejects exactly the records missing a required
field or out of range; `records_invalid` is the batch size minus
`records_processed`; every emitted alert stems from a validated record (so
a rejected record produces no alert); validation is a total function. -/
theorem c4_validacao_lote (data : List Registro) (rank bid : ℕ) (t : Thresholds) :
    (∀ r : Registro, validateRecord r = none ↔ (faltaCampoObrigatorio r ∨ foraDaFaixa r))
    ∧ (process_batch rank bid data t).records_processed = (validate_data data).length
    ∧ (process_batch rank bid data t).records_invalid
        = data.length - (process_batch rank bid data t).records_processed
    ∧ (∀ a ∈ (process_batch rank bid data t).alerts,
        ∃ v ∈ validate_data data, a.sensor_id = v.sensor_id ∧ a.timestamp = v.timestamp) := by
  refine ⟨?_, rfl, rfl, ?_⟩
  · intro r
    obtain ⟨s0, t0, f0, p0, e0, h0, u0, x0, y0⟩ := r
    cases s0 with
    | none => simp [validateRecord, faltaCampoObrigatorio]
    | some sid =>
    cases f0 with
    | none => simp [validateRecord, faltaCampoObrigatorio]
    | some fr =>
    cases p0 with
    | none => simp [validateRecord, faltaCampoObrigatorio]
    | some pr =>
    cases e0 with
    | none => simp [validateRecord, faltaCampoObrigatorio]
    | some te =>
    cases h0 with
    | none => simp [validateRecord, faltaCampoObrigatorio]
    | some ph =>
    unfold validateRecord faltaCampoObrigatorio foraDaFaixa
    dsimp only
    split_ifs with hc
    · refine iff_of_true rfl (Or.inr ?_)
      rcases hc with h | h | h | h | h | h
      · exact Or.inl ⟨fr, rfl, h⟩
      · exact Or.inr (Or.inl ⟨pr, rfl, h⟩)
      · exact Or.inr (Or.inr (Or.inl ⟨te, rfl, Or.inl h⟩))
      · exact Or.inr (Or.inr (Or.inl ⟨te, rfl, Or.inr h⟩))
      · exact Or.inr (Or.inr (Or.inr ⟨ph, rfl, Or.inl h⟩))
      · exact Or.inr (Or.inr (Or.inr ⟨ph, rfl, Or.inr h⟩))
    · refine iff_of_false (by simp) ?_
      rintro (hf | hf)
      · rcases hf with h | h | h | h | h <;> simp_all
      · rcases hf with ⟨x, hx, h⟩ | ⟨x, hx, h⟩ | ⟨x, hx, h⟩ | ⟨x, hx, h⟩ <;>
          simp only [Option.some.injEq] at hx <;> subst hx
        · exact hc (Or.inl h)
        · exact hc (Or.inr (Or.inl h))
        · rcases h with h | h
          · exact hc (Or.inr (Or.inr (Or.inl h)))
          · exact hc (Or.inr (Or.inr (Or.inr (Or.inl h))))
        · rcases h with h | h
          · exact hc (Or.inr (Or.inr (Or.inr (Or.inr (Or.inl h)))))
          · exact hc (Or.inr (Or.inr (Or.inr (Or.inr (Or.inr h)))))
  · intro a ha
    simp only [process_batch, detect_anomalies, List.mem_flatten, List.mem_map] at ha
    obtain ⟨l, ⟨v, hv, rfl⟩, hal⟩ := ha
    exact ⟨v, hv, mem_alertsFor t v a hal⟩

/-- A well-formed reading except for `ph_level = 20`, outside `[0, 14]`. -/
def registroPh20 : Registro :=
  { sensor_id := some "S3", timestamp := none, flow_rate := some 10, pressure := some 2,
    temperature := some 25, ph_level := some 20, turbidity := none,
    location_x := none, location_y := none }

/-- The spec scenario batch: 5 readings, the third with `ph_level = 20`. -/
def lotePh20 : List Registro :=
  [ { sensor_id := some "S1", timestamp := none, flow_rate := some 10, pressure := some 2,
      temperature := some 25, ph_level := some 7, turbidity := none,
      location_x := none, location_y := none },
    { sensor_id := some "S2", timestamp := none, flow_rate := some 11, pressure := some 2,
      temperature := some 24, ph_level := some 7, turbidity := none,
      location_x := none, location_y := none },
    registroPh20,
    { sensor_id := some "S4", timestamp := none, flow_rate := some 12, pressure := some 3,
      temperature := some 26, ph_level := some 8, turbidity := none,
      location_x := none, location_y := none },
    { sensor_id := some "S5", timestamp := none, flow_rate := some 9, pressure := some 2,
      temperature := some 25, ph_level := some 7, turbidity := none,
      location_x := none, location_y := none } ]

/-- An empty threshold dictionary: every `thresholds.get(key, default)` falls
back to its default. -/
def thresholdsVazio : Thresholds := ⟨none, none, none, none, none, none⟩

/-- C4 witness: the scenario batch yields `records_invalid = 1`,
`records_processed = 4`, and no alert at all (in particular none for the
rejected record). -/
theorem c4_validacao_lote_witness :
    validateRecord registroPh20 = none
    ∧ (process_batch 1 0 lotePh20 thresholdsVazio).records_invalid = 1
    ∧ (process_batch 1 0 lotePh20 thresholdsVazio).records_processed = 4
    ∧ (process_batch 1 0 lotePh20 thresholdsVazio).alerts = [] :=
  ⟨((c4_validacao_lote lotePh20 1 0 thresholdsVazio).1 registroPh20).2
      (Or.inr (Or.inr (Or.inr (Or.inr ⟨20, rfl, Or.inr (by norm_num)⟩)))),
   by rfl, by rfl, by
     show detect_anomalies (validate_data lotePh20) thresholdsVazio = []
     have hval : validate_data lotePh20
         = [ ⟨"S1", "", 10, 2, 25, 7, 0, 0, 0⟩, ⟨"S2", "", 11, 2, 24, 7, 0, 0, 0⟩,
             ⟨"S4", "", 12, 3, 26, 8, 0, 0, 0⟩, ⟨"S5", "", 9, 2, 25, 7, 0, 0, 0⟩ ] := by rfl
     rw [hval]
     norm_num [detect_anomalies, alertsFor, thresholdsVazio]⟩

/-! ## `MasterNode.process_results` (`src/mpi/master_node.py`, lines 150–207)

Pandas column statistics over the concatenated `processed_data`.  `.std()`
is the square root of the sample variance (`ddof = 1`); the square root of a
rational is not rational, so the stats block carries the variance itself —
the reported standard deviation is a function of it, so any invariance
proved for the variance transfers to the standard deviation. -/

def mediaQ (l : List ℚ) : ℚ := l.sum / l.length

def varAmostral (l : List ℚ) : ℚ :=
  ((l.map (fun x => (x - mediaQ l) ^ 2)).sum) / ((l.length - 1 : ℕ) : ℚ)

def listMin : List ℚ → ℚ
  | [] => 0
  | a :: t => t.foldl min a

def listMax : List ℚ → ℚ
  | [] => 0
  | a :: t => t.foldl max a

structure ParamStats where
  mean : ℚ
  var : ℚ
  min : ℚ
  max : ℚ
deriving DecidableEq

def statsOf (l : List ℚ) : ParamStats :=
  { mean := mediaQ l, var := varAmostral l, min := listMin l, max := listMax l }

structure ReportStats where
  flow_rate : ParamStats
  pressure : ParamStats
  temperature : ParamStats
deriving DecidableEq

/-- The consolidated report.  `processing_time` (a wall-clock timestamp) is
omitted. -/
structure Report where
  total_records : ℕ
  total_alerts : ℕ
  statistics : Option ReportStats
  alerts : List AlertaWorker
deriving DecidableEq

/-- `MasterNode.process_results`: `none` models the early `return {}` for an
empty result list.  When every batch carried empty `processed_data` the code
builds the all-zero report (its `total_records`/`total_alerts` are hardcoded
to `0` in that branch). -/
def process_results (results : List BatchResult) : Option Report :=
  if results = [] then none
  else
    let total_records := (results.map (fun r => r.records_processed)).sum
    let total_alerts := (results.map (fun r => r.alerts_count)).sum
    let all_alerts : List AlertaWorker := (results.map (fun r => r.alerts)).flatten
    let all_data : List RegistroValidado := (results.map (fun r => r.processed_data)).flatten
    if all_data = [] then
      some { total_records := 0, total_alerts := 0, statistics := none, alerts := [] }
    else
      some { total_records := total_records, total_alerts := total_alerts,
             statistics := some
               { flow_rate := statsOf (all_data.map (fun r => r.flow_rate)),
                 pressure := statsOf (all_data.map (fun r => r.pressure)),
                 temperature := statsOf (all_data.map (fun r => r.temperature)) },
             alerts := all_alerts }

/-! ## Claim C6 — order-invariance of the consolidation -/

theorem listMin_eq_min? (l : List ℚ) : listMin l = (l.min?).getD 0 := by
  cases l <;> rfl

theorem listMax_eq_max? (l : List ℚ) : listMax l = (l.max?).getD 0 := by
  cases l <;> rfl

theorem min?_perm (l₁ l₂ : List ℚ) (h : l₁.Perm l₂) (m : ℚ) (hm : l₁.min? = some m) :
    l₂.min? = some m := by
  have inst : Std.Antisymm (fun (a b : ℚ) => a ≤ b) :=
    ⟨fun h1 h2 => le_antisymm h1 h2⟩
  rw [List.min?_eq_some_iff (fun a => le_refl a) (fun a b => min_choice a b)
    (fun a b c => le_min_iff)] at hm ⊢
  exact ⟨(h.mem_iff).1 hm.1, fun b hb => hm.2 b ((h.mem_iff).2 hb)⟩

theorem max?_perm (l₁ l₂ : List ℚ) (h : l₁.Perm l₂) (m : ℚ) (hm : l₁.max? = some m) :
    l₂.max? = some m := by
  have inst : Std.Antisymm (fun (a b : ℚ) => a ≤ b) :=
    ⟨fun h1 h2 => le_antisymm h1 h2⟩
  rw [List.max?_eq_some_iff (fun a => le_refl a) (fun a b => max_choice a b)
    (fun a b c => max_le_iff)] at hm ⊢
  exact ⟨(h.mem_iff).1 hm.1, fun b hb => hm.2 b ((h.mem_iff).2 hb)⟩

theorem listMin_perm (l₁ l₂ : List ℚ) (h : l₁.Perm l₂) : listMin l₁ = listMin l₂ := by
  rw [listMin_eq_min?, listMin_eq_min?]
  rcases hm : l₁.min? with _ | m
  · rw [List.min?_eq_none_iff] at hm
    subst hm
    rw [List.Perm.eq_nil h.symm]
    rfl
  · rw [min?_perm l₁ l₂ h m hm]

theorem listMax_perm (l₁ l₂ : List ℚ) (h : l₁.Perm l₂) : listMax l₁ = listMax l₂ := by
  rw [listMax_eq_max?, listMax_eq_max?]
  rcases hm : l₁.max? with _ | m
  · rw [List.max?_eq_none_iff] at hm
    subst hm
    rw [List.Perm.eq_nil h.symm]
    rfl
  · rw [max?_perm l₁ l₂ h m hm]

theorem mediaQ_perm (l₁ l₂ : List ℚ) (h : l₁.Perm l₂) : mediaQ l₁ = mediaQ l₂ := by
  unfold mediaQ
  rw [h.sum_eq, h.length_eq]

theorem varAmostral_perm (l₁ l₂ : List ℚ) (h : l₁.Perm l₂) :
    varAmostral l₁ = varAmostral l₂ := by
  unfold varAmostral
  rw [mediaQ_perm l₁ l₂ h, (h.map _).sum_eq, h.length_eq]

theorem statsOf_perm (l₁ l₂ : List ℚ) (h : l₁.Perm l₂) : statsOf l₁ = statsOf l₂ := by
  unfold statsOf
  rw [mediaQ_perm l₁ l₂ h, varAmostral_perm l₁ l₂ h, listMin_perm l₁ l₂ h,
    listMax_perm l₁ l₂ h]

/-- C6: consolidating a permuted list of `BatchResult`s yields the same
`total_records`, `total_alerts` and per-parameter statistics (mean, variance
— hence standard deviation — min and max), and the same alert multiset (the
`alerts` array order follows arrival order). -/
theorem c6_process_results_perm (rs₁ rs₂ : List BatchResult) (hperm : rs₁.Perm rs₂) :
    (process_results rs₁).isSome = (process_results rs₂).isSome
    ∧ ∀ r₁ r₂, process_results rs₁ = some r₁ → process_results rs₂ = some r₂ →
        r₁.total_records = r₂.total_records
        ∧ r₁.total_alerts = r₂.total_alerts
        ∧ r₁.statistics = r₂.statistics
        ∧ r₁.alerts.Perm r₂.alerts := by
  have hnil : rs₁ = [] ↔ rs₂ = [] := by
    constructor <;> intro hh <;> subst hh
    · exact List.Perm.eq_nil hperm.symm
    · exact List.Perm.eq_nil hperm
  by_cases h1 : rs₁ = []
  · have h2 : rs₂ = [] := hnil.1 h1
    subst h1; subst h2
    refine ⟨rfl, ?_⟩
    intro r₁ r₂ hr₁ hr₂
    simp [process_results] at hr₁
  · have h2 : ¬ rs₂ = [] := fun hh => h1 (hnil.2 hh)
    have hdata : ((rs₁.map (·.processed_data)).flatten).Perm
        ((rs₂.map (·.processed_data)).flatten) := (hperm.map _).flatten
    have halerts : ((rs₁.map (·.alerts)).flatten).Perm
        ((rs₂.map (·.alerts)).flatten) := (hperm.map _).flatten
    have hrec : (rs₁.map (·.records_processed)).sum
        = (rs₂.map (·.records_processed)).sum := (hperm.map _).sum_eq
    have hcnt : (rs₁.map (·.alerts_count)).sum
        = (rs₂.map (·.alerts_count)).sum := (hperm.map _).sum_eq
    by_cases hd : (rs₁.map (·.processed_data)).flatten = []
    · have hd2 : (rs₂.map (·.processed_data)).flatten = [] := by
        rw [hd] at hdata
        exact List.Perm.eq_nil hdata.symm
      simp only [process_results, if_neg h1, if_neg h2, if_pos hd, if_pos hd2]
      refine ⟨by trivial, ?_⟩
      intro r₁ r₂ hr₁ hr₂
      obtain rfl := Option.some.inj hr₁
      obtain rfl := Option.some.inj hr₂
      exact ⟨rfl, rfl, rfl, List.Perm.refl []⟩
    · have hd2 : ¬ (rs₂.map (·.processed_data)).flatten = [] := by
        intro hh
        rw [hh] at hdata
        exact hd (List.Perm.eq_nil hdata)
      simp only [process_results, if_neg h1, if_neg h2, if_neg hd, if_neg hd2]
      refine ⟨by trivial, ?_⟩
      intro r₁ r₂ hr₁ hr₂
      obtain rfl := Option.some.inj hr₁
      obtain rfl := Option.some.inj hr₂
      refine ⟨hrec, hcnt, ?_, halerts⟩
      rw [statsOf_perm _ _ (hdata.map _), statsOf_perm _ _ (hdata.map _),
        statsOf_perm _ _ (hdata.map _)]

/-- Two small batch results with one processed record each and no alerts. -/
def resultadoA : BatchResult :=
  { batch_id := 0, worker_rank := 1, records_processed := 1, records_invalid := 0,
    alerts_count := 0, alerts := [],
    processed_data := [⟨"S1", "", 10, 2, 25, 7, 0, 0, 0⟩] }

def resultadoB : BatchResult :=
  { batch_id := 1, worker_rank := 2, records_processed := 1, records_invalid := 1,
    alerts_count := 0, alerts := [],
    processed_data := [⟨"S2", "", 20, 3, 24, 8, 0, 0, 0⟩] }

/-- C6 witness: folding `[A, B]` and `[B, A]` gives reports with identical
totals and statistics. -/
theorem c6_process_results_perm_witness :
    ([resultadoA, resultadoB] : List BatchResult).Perm [resultadoB, resultadoA]
    ∧ (process_results [resultadoA, resultadoB]).map Report.total_records
        = (process_results [resultadoB, resultadoA]).map Report.total_records
    ∧ (process_results [resultadoA, resultadoB]).map Report.total_alerts
        = (process_results [resultadoB, resultadoA]).map Report.total_alerts
    ∧ (process_results [resultadoA, resultadoB]).map Report.statistics
        = (process_results [resultadoB, resultadoA]).map Report.statistics := by
  have hperm : ([resultadoA, resultadoB] : List BatchResult).Perm
      [resultadoB, resultadoA] := List.Perm.swap resultadoB resultadoA []
  have h := c6_process_results_perm _ _ hperm
  rcases hx1 : process_results [resultadoA, resultadoB] with _ | r₁
  · exact absurd hx1 (by decide)
  rcases hx2 : process_results [resultadoB, resultadoA] with _ | r₂
  · exact absurd hx2 (by decide)
  obtain ⟨ht, ha, hs, _⟩ := h.2 r₁ r₂ hx1 hx2
  exact ⟨hperm, by rw [Option.map_some', Option.map_some', ht],
    by rw [Option.map_some', Option.map_some', ha],
    by rw [Option.map_some', Option.map_some', hs]⟩

/-! ## Partitioning (claim C5)

Three partitioners appear in the sources:
* `MasterNode.distribute_work` (lines 90–94): contiguous slices
  `data.iloc[i:i+batch_size]` for `i in range(0, len(data), batch_size)`;
* `processador_mpi.py` (line 11): strided slices `df.iloc[i::size]`;
* `SistemaMonitoramento.processar_dados_distribuido` (line 225):
  `np.array_split(dados, size - 1)`.
All are generic in the row type. -/

/-- The batch list built by `distribute_work`.  `range(0, n, 0)` raises
`ValueError` in Python; the unreachable `batch_size = 0` case is modelled as
producing no batches. -/
def batchesOf (bs : ℕ) : List α → List (List α)
  | [] => []
  | a :: l => if bs = 0 then [] else ((a :: l).take bs) :: batchesOf bs ((a :: l).drop bs)
termination_by l => l.length
decreasing_by simp [List.length_drop]; omega

/-- `l[0::n]` — every `n`-th element. -/
def everyNth (n : ℕ) : List α → List α
  | [] => []
  | a :: l => a :: everyNth n (l.drop (n - 1))
termination_by l => l.length
decreasing_by simp [List.length_drop]; omega

/-- `chunks = [df.iloc[i::size] for i in range(size)]` from
`processador_mpi.py`. -/
def chunks (size : ℕ) (l : List α) : List (List α) :=
  (List.range size).map (fun i => everyNth size (l.drop i))

/-- Split `l` into consecutive slices of the given sizes. -/
def splitSizes : List ℕ → List α → List (List α)
  | [], _ => []
  | s :: ss, l => l.take s :: splitSizes ss (l.drop s)

/-- `np.array_split(l, n)`: `len % n` sections of length `len / n + 1`
followed by `n - len % n` sections of length `len / n`. -/
def array_split (l : List α) (n : ℕ) : List (List α) :=
  splitSizes (List.replicate (l.length % n) (l.length / n + 1)
    ++ List.replicate (n - l.length % n) (l.length / n)) l

/-- `processar_dados_distribuido` sends only the chunks with
`len(chunk) > 0`. -/
def chunksEnviados (L : List (List α)) : List (List α) :=
  L.filter (fun c => !c.isEmpty)

theorem batchesOf_flatten (bs : ℕ) (hbs : 1 ≤ bs) (l : List α) :
    (batchesOf bs l).flatten = l := by
  have H : ∀ n (l : List α), l.length ≤ n → (batchesOf bs l).flatten = l := by
    intro n
    induction n with
    | zero =>
        intro l hl
        have : l = [] := List.eq_nil_of_length_eq_zero (by omega)
        subst this
        simp [batchesOf]
    | succ n ih =>
        intro l hl
        cases l with
        | nil => simp [batchesOf]
        | cons a t =>
            rw [batchesOf, if_neg (by omega), List.flatten_cons,
              ih ((a :: t).drop bs) (by simp [List.length_drop] at hl ⊢; omega)]
            exact List.take_append_drop bs (a :: t)
  exact H l.length l le_rfl

theorem chunks_nil (n : ℕ) : (chunks n ([] : List α)).flatten = [] := by
  unfold chunks
  generalize List.range n = L
  induction L with
  | nil => rfl
  | cons i L ih => simp [everyNth, ih]

theorem chunks_flatten_perm (n : ℕ) (hn : 1 ≤ n) (l : List α) :
    ((chunks n l).flatten).Perm l := by
  induction l with
  | nil => rw [chunks_nil]
  | cons a rest ih =>
      obtain ⟨m, rfl⟩ : ∃ m, n = m + 1 := ⟨n - 1, by omega⟩
      have hchunks : chunks (m + 1) (a :: rest)
          = (a :: everyNth (m + 1) (rest.drop m))
            :: (List.range m).map (fun j => everyNth (m + 1) (rest.drop j)) := by
        unfold chunks
        rw [List.range_succ_eq_map]
        simp only [List.map_cons, List.map_map, List.drop_zero]
        congr 1
        rw [everyNth]
        simp
      have hrest : chunks (m + 1) rest
          = ((List.range m).map (fun j => everyNth (m + 1) (rest.drop j)))
            ++ [everyNth (m + 1) (rest.drop m)] := by
        unfold chunks
        rw [List.range_succ, List.map_append]
        rfl
      rw [hchunks, List.flatten_cons, List.cons_append]
      refine List.Perm.cons a ?_
      have h2 : ((chunks (m + 1) rest).flatten)
          = (((List.range m).map fun j => everyNth (m + 1) (rest.drop j)).flatten)
            ++ everyNth (m + 1) (rest.drop m) := by
        rw [hrest, List.flatten_append]
        simp
      refine List.Perm.trans ?_ ih
      rw [h2]
      exact List.perm_append_comm

theorem splitSizes_flatten (ss : List ℕ) (l : List α) (h : l.length ≤ ss.sum) :
    (splitSizes ss l).flatten = l := by
  induction ss generalizing l with
  | nil =>
      simp only [List.sum_nil, Nat.le_zero] at h
      have : l = [] := List.eq_nil_of_length_eq_zero h
      subst this
      rfl
  | cons s ss ih =>
      rw [splitSizes, List.flatten_cons,
        ih (l.drop s) (by simp [List.length_drop] at h ⊢; omega)]
      exact List.take_append_drop s l

theorem array_split_flatten (l : List α) (n : ℕ) (hn : 1 ≤ n) :
    (array_split l n).flatten = l := by
  refine splitSizes_flatten _ l ?_
  rw [List.sum_append, List.sum_replicate, List.sum_replicate, smul_eq_mul, smul_eq_mul]
  have ha : l.length % n < n := Nat.mod_lt _ hn
  have hdm : n * (l.length / n) + l.length % n = l.length := Nat.div_add_mod l.length n
  have haq : (l.length % n) * (l.length / n) ≤ n * (l.length / n) :=
    Nat.mul_le_mul_right _ (le_of_lt ha)
  rw [Nat.mul_succ, Nat.sub_mul]
  omega

theorem chunksEnviados_flatten (L : List (List α)) :
    (chunksEnviados L).flatten = L.flatten := by
  induction L with
  | nil => rfl
  | cons c L ih =>
      rw [List.flatten_cons, ← ih]
      unfold chunksEnviados
      rw [List.filter_cons]
      by_cases hc : c.isEmpty
      · have hceq : c = [] := by cases c <;> simp_all
        subst hceq
        simp
      · simp [hc]

/-- C5: each of the three partitioning schemes is lossless for any
`batch_size ≥ 1` and any worker count ≥ 1 — concatenating the produced
batches (as a multiset) returns every original reading exactly once.  For
the two contiguous schemes the concatenation is even equal to the input;
for the strided scheme it is a permutation of it.  Dropping the empty
chunks, as `processar_dados_distribuido` does before sending, loses nothing
either. -/
theorem c5_particionamento_sem_perda (l : List α) (bs n : ℕ) :
    (1 ≤ bs → (batchesOf bs l).flatten = l)
    ∧ (1 ≤ n → ((chunks n l).flatten).Perm l)
    ∧ (1 ≤ n → (array_split l n).flatten = l
        ∧ (chunksEnviados (array_split l n)).flatten = l) :=
  ⟨fun hbs => batchesOf_flatten bs hbs l,
   fun hn => chunks_flatten_perm n hn l,
   fun hn => ⟨array_split_flatten l n hn,
     by rw [chunksEnviados_flatten]; exact array_split_flatten l n hn⟩⟩

/-- C5 witness: five readings, `batch_size = 2`, two workers. -/
theorem c5_particionamento_sem_perda_witness :
    ((batchesOf 2 [1, 2, 3, 4, 5]).flatten = [1, 2, 3, 4, 5])
    ∧ ((chunks 2 [1, 2, 3, 4, 5]).flatten).Perm [1, 2, 3, 4, 5]
    ∧ (array_split [1, 2, 3, 4, 5] 2).flatten = [1, 2, 3, 4, 5] :=
  ⟨(c5_particionamento_sem_perda [1, 2, 3, 4, 5] 2 2).1 (by decide),
   (c5_particionamento_sem_perda [1, 2, 3, 4, 5] 2 2).2.1 (by decide),
   ((c5_particionamento_sem_perda [1, 2, 3, 4, 5] 2 2).2.2 (by decide)).1⟩

/-! ## `processar_dados_local` (`sistema_monitoramento.py`, lines 251–276)

Rows read from the AnyLogic CSV are dicts accessed with `.get` and
defaults; the flow column of this engine is named `vazao`.  The alert's
wall-clock `timestamp` and the `processado_por` label are omitted: both are
constants with respect to the data. -/

structure RegistroLocal where
  sensor_id : Option String
  vazao : Option ℝ
  latitude : Option ℝ
  longitude : Option ℝ

structure AlertaLocal where
  sensor_id : String
  tipo : String
  vazao : ℝ
  localizacao : ℝ × ℝ

/-- `SistemaMonitoramento.processar_dados_local`: every row is processed —
`sensor_id` defaults to `"UNKNOWN"` and `vazao` to `0` — and an alert is
emitted under the guard `tem_anomalia and tipo not in [...]`
(`alertaEmitido`).  `processo_worker` (lines 302–322) runs the identical
per-row loop against its own detector. -/
noncomputable def processar_dados_local (d : DetectorAnomalias) :
    List RegistroLocal → List AlertaLocal × DetectorAnomalias
  | [] => ([], d)
  | r :: rest =>
      let sensor_id := r.sensor_id.getD "UNKNOWN"
      let vazao := r.vazao.getD 0
      let res := detectar_anomalia d sensor_id vazao
      let alertas := if alertaEmitido res.1 then
          [⟨sensor_id, res.1.2, vazao, (r.latitude.getD 0, r.longitude.getD 0)⟩] else []
      let resto := processar_dados_local res.2 rest
      (alertas ++ resto.1, resto.2)

/-! ## Claim C8 — rows with only `sensor_id` and the flow value

`processar_dados_local` accepts such rows, but `WorkerNode.validate_data`
(`codigo/src/mpi/worker_node.py` line 47) also requires `pressure`,
`temperature` and `ph_level`, so the claim fails on that path. -/

/-- A row carrying only `sensor_id` and `flow_rate`. -/
def registroMinimo : Registro :=
  { sensor_id := some "S1", timestamp := none, flow_rate := some 10, pressure := none,
    temperature := none, ph_level := none, turbidity := none,
    location_x := none, location_y := none }

/-- C8 counterexample: the worker engine rejects a reading that provides
only `sensor_id` and `flow_rate` — it is counted invalid and never reaches
anomaly detection. -/
theorem c8_counterexample :
    validate_data [registroMinimo] = []
    ∧ (process_batch 1 0 [registroMinimo] thresholdsVazio).records_processed = 0
    ∧ (process_batch 1 0 [registroMinimo] thresholdsVazio).records_invalid = 1
    ∧ (process_batch 1 0 [registroMinimo] thresholdsVazio).alerts = [] :=
  ⟨rfl, rfl, rfl, rfl⟩

/-- C8 (amended): the `sistema_monitoramento` engine accepts a row carrying
only `sensor_id` and the flow value and runs anomaly detection on it: the
reading is appended to the sensor's history and an alert appears exactly
under the detector's alert guard. -/
theorem c8_linha_minima_aceita (d : DetectorAnomalias) (s : String) (v : ℝ) :
    (processar_dados_local d [⟨some s, some v, none, none⟩]).2
        = adicionar_leitura d s v
    ∧ (processar_dados_local d [⟨some s, some v, none, none⟩]).1
        = (if alertaEmitido (detectar_anomalia d s v).1 then
            [⟨s, (detectar_anomalia d s v).1.2, v, (0, 0)⟩] else []) := by
  constructor
  · simp [processar_dados_local, snd_detectar]
  · simp [processar_dados_local]

/-! ## Claim C9 — termination messages (the `None` sentinel)

The master's MPI sends, in program order.  Receives and file writes carry no
information for this claim and are omitted.

For `MasterNode` (`src/mpi/master_node.py`) the trace is modelled for
`size = 2` (one worker) under the schedule in which the worker answers every
batch, which makes `distribute_work`'s poll loop deterministic; `run` is
modelled as an externally interrupted loop over finitely many cycles whose
`finally` block calls `shutdown`. -/

inductive MsgMPI where
  | lote : MsgMPI
  | fim : MsgMPI
deriving DecidableEq

structure Envio where
  dest : ℕ
  msg : MsgMPI
deriving DecidableEq

/-- Sends of `SistemaMonitoramento.processar_dados_distribuido`: the chunk
`i` of `np.array_split(dados, size - 1)` goes to worker `i + 1` when it is
nonempty; nothing is sent when the master runs alone. -/
def sends_processar_distribuido (size : ℕ) (dados : List α) : List Envio :=
  if size = 1 then []
  else (array_split dados (size - 1)).enum.filterMap
    (fun p => if p.2.isEmpty then none else some ⟨p.1 + 1, MsgMPI.lote⟩)

/-- `SistemaMonitoramento.finalizar_workers`: one `None` per worker rank. -/
def sends_finalizar_workers (size : ℕ) : List Envio :=
  (List.range (size - 1)).map (fun i => ⟨i + 1, MsgMPI.fim⟩)

/-- Sends of `SistemaMonitoramento.processo_master`: per cycle, nothing when
no data arrived (`continue`), else the distribution sends; then, in the
`finally` block, `finalizar_workers`. -/
def sends_processo_master (size : ℕ) (ciclos : List (List α)) : List Envio :=
  (ciclos.map (fun dados =>
    if dados.isEmpty then [] else sends_processar_distribuido size dados)).flatten
  ++ sends_finalizar_workers size

/-- Sends of `MasterNode.distribute_work` with one worker and `n` batches:
each batch in turn, then the per-cycle `None`. -/
def sends_distribute_work (nbatches : ℕ) : List Envio :=
  if nbatches = 0 then []
  else (List.range nbatches).map (fun _ => ⟨1, MsgMPI.lote⟩) ++ [⟨1, MsgMPI.fim⟩]

/-- Sends of `MasterNode.run` over the given cycles (batch count per cycle)
followed by `shutdown`'s `None` to the single worker. -/
def sends_master_run (ciclos : List ℕ) : List Envio :=
  (ciclos.map sends_distribute_work).flatten ++ [⟨1, MsgMPI.fim⟩]

/-- How many termination messages worker `w` is sent. -/
def numFim (tr : List Envio) (w : ℕ) : ℕ :=
  tr.countP (fun e => decide (e.dest = w ∧ e.msg = MsgMPI.fim))

/-- Whether a batch is sent to worker `w` after a termination message to
`w`. -/
def loteAposFim (tr : List Envio) (w : ℕ) : Bool :=
  (tr.dropWhile (fun e => decide (¬ (e.dest = w ∧ e.msg = MsgMPI.fim)))).any
    (fun e => decide (e.dest = w ∧ e.msg = MsgMPI.lote))

/-- C9: `MasterNode.run` violates the termination protocol.  With one
worker and two one-batch cycles the master's send trace is
`[batch, None, batch, None, None]`: worker 1 receives three termination
messages instead of exactly one, and a batch after the first of them.  (The
`sistema_monitoramento` master does satisfy the protocol: with one worker
and one data cycle its trace ends in exactly one `None` with no batch after
it.) -/
theorem c9_terminacao_violada :
    sends_master_run [1, 1]
      = [⟨1, MsgMPI.lote⟩, ⟨1, MsgMPI.fim⟩, ⟨1, MsgMPI.lote⟩, ⟨1, MsgMPI.fim⟩,
         ⟨1, MsgMPI.fim⟩]
    ∧ numFim (sends_master_run [1, 1]) 1 = 3
    ∧ loteAposFim (sends_master_run [1, 1]) 1 = true
    ∧ numFim (sends_processo_master 2 [[7]] : List Envio) 1 = 1
    ∧ loteAposFim (sends_processo_master 2 [([7] : List ℕ)]) 1 = false := by
  refine ⟨by decide, by decide, by decide, by decide, by decide⟩

end Esgoto
